import Mathlib

/-!
Verification of the filtering/aggregation core of the EV price-vs-range
dashboard (`ev_analysis_app.py`).

The script is a linear pipeline: load a CSV, drop incomplete rows, show
summary metrics over the unfiltered table, apply a conjunction of
range/equality predicates, optionally trim price outliers with the IQR
rule, derive a price-per-mile column, render charts, and export the
filtered table as CSV and PDF.  Numeric columns are modelled as exact
rationals; the dataset after load/dropna is a `List Record`.
-/

attribute [local semireducible] Rat.mul Rat.inv Rat.add Rat.sub

/-- One cleaned row of the dataset: the four columns selected at load time
(`Model Year`, `Make`, `Electric Range`, `Expected Price ($1k)`). -/
structure Record where
  modelYear : Int
  make : String
  electricRange : ℚ
  expectedPrice : ℚ
deriving DecidableEq

/-- The sidebar widget state consumed by the filter section of the script:
brand selectbox, model-year slider, the two interval sliders, and the two
checkboxes. -/
structure FilterCriteria where
  brand : String
  maxModelYear : Int
  priceLo : ℚ
  priceHi : ℚ
  rangeLo : ℚ
  rangeHi : ℚ
  show_outliers : Bool
  advanced_charts : Bool
deriving DecidableEq

/-- The numeric filter of line 47-49: `Model Year <= model_year`,
`Expected Price` between the price slider bounds (pandas `between` is
inclusive on both ends), `Electric Range` between the range slider bounds. -/
def basePass (c : FilterCriteria) (r : Record) : Bool :=
  decide (r.modelYear ≤ c.maxModelYear) &&
  decide (c.priceLo ≤ r.expectedPrice) && decide (r.expectedPrice ≤ c.priceHi) &&
  decide (c.rangeLo ≤ r.electricRange) && decide (r.electricRange ≤ c.rangeHi)

/-- Lines 47-51: the numeric filter followed by the brand filter, which only
runs when the selectbox is not on `"All"`. -/
def baseFilter (c : FilterCriteria) (l : List Record) : List Record :=
  let filtered := l.filter (basePass c)
  if c.brand ≠ "All" then filtered.filter (fun r => r.make == c.brand) else filtered

/-- Insert a value into an already sorted list of rationals. -/
def insertSorted (x : ℚ) : List ℚ → List ℚ
  | [] => [x]
  | y :: ys => if x ≤ y then x :: y :: ys else y :: insertSorted x ys

/-- Sort a list of rationals ascending (insertion sort); models the sorted
order that `Series.quantile` works on. -/
def sortQ : List ℚ → List ℚ
  | [] => []
  | x :: xs => insertSorted x (sortQ xs)

/-- The value of `Series.quantile(q)` with the default linear interpolation:
with the values sorted ascending and `h = q * (n - 1)`, the result is
`s[floor h] + (h - floor h) * (s[ceil h] - s[floor h])`.  Only meaningful for
a non-empty list; `quantileLinear` guards the empty case. -/
def quantileVal (xs : List ℚ) (q : ℚ) : ℚ :=
  let s := sortQ xs
  let h : ℚ := q * ((xs.length : ℚ) - 1)
  let lo := s.getD ⌊h⌋.toNat 0
  let hi := s.getD ⌈h⌉.toNat 0
  lo + (h - (⌊h⌋ : ℚ)) * (hi - lo)

/-- `Series.quantile` as the script observes it: on an empty series pandas
returns NaN, modelled here as `none`. -/
def quantileLinear (xs : List ℚ) (q : ℚ) : Option ℚ :=
  match xs with
  | [] => none
  | _ :: _ => some (quantileVal xs q)

/-- Lines 55-58: Q1 and Q3 of `Expected Price ($1k)` over the filtered
subset, `IQR = Q3 - Q1`, and the keep-predicate
`~((price < Q1 - 1.5*IQR) | (price > Q3 + 1.5*IQR))`.  When the subset is
empty both quantiles are NaN and every comparison with NaN is `False`, so the
keep-predicate is vacuously true; the fallback branch mirrors that. -/
def iqrStep (l : List Record) : List Record :=
  let prices := l.map Record.expectedPrice
  match quantileLinear prices (1/4), quantileLinear prices (3/4) with
  | some q1, some q3 =>
    let iqr := q3 - q1
    l.filter fun r =>
      !(decide (r.expectedPrice < q1 - 3/2 * iqr) || decide (r.expectedPrice > q3 + 3/2 * iqr))
  | _, _ => l.filter fun _ => !(false || false)

/-- Lines 47-58 as one function: the base filter, then the IQR step exactly
when the `Show Outliers` checkbox is unchecked. -/
def filterEngine (c : FilterCriteria) (l : List Record) : List Record :=
  let filtered := baseFilter c l
  if c.show_outliers then filtered else iqrStep filtered

/-- Lower IQR fence `Q1 - 1.5*IQR` used at line 58. -/
def iqrLower (l : List Record) : ℚ :=
  let q1 := quantileVal (l.map Record.expectedPrice) (1/4)
  let q3 := quantileVal (l.map Record.expectedPrice) (3/4)
  q1 - 3/2 * (q3 - q1)

/-- Upper IQR fence `Q3 + 1.5*IQR` used at line 58. -/
def iqrUpper (l : List Record) : ℚ :=
  let q1 := quantileVal (l.map Record.expectedPrice) (1/4)
  let q3 := quantileVal (l.map Record.expectedPrice) (3/4)
  q3 + 3/2 * (q3 - q1)

/-- The three-row example dataset of the specification. -/
def threeRows : List Record :=
  [⟨2020, "A", 100, 40⟩, ⟨2021, "B", 300, 35⟩, ⟨2022, "A", 50, 90⟩]

/-- Wide criteria for the example dataset: maxYear 2022, price in [0,100],
range in [0,300], brand `All`, outliers shown. -/
def cAll : FilterCriteria :=
  ⟨"All", 2022, 0, 100, 0, 300, true, false⟩

/-- Same, with the brand selectbox on `A`. -/
def cBrandA : FilterCriteria :=
  ⟨"A", 2022, 0, 100, 0, 300, true, false⟩

/-- A row of the filtered view after line 64 added the derived
`Price per Mile` column. -/
structure ViewRecord where
  modelYear : Int
  make : String
  electricRange : ℚ
  expectedPrice : ℚ
  pricePerMile : ℚ
deriving DecidableEq

/-- Forget the derived column, recovering the source row. -/
def ViewRecord.toRecord (v : ViewRecord) : Record :=
  ⟨v.modelYear, v.make, v.electricRange, v.expectedPrice⟩

/-- Line 64: `Expected Price ($1k) * 1000 / Electric Range.replace(0, 1)` —
the derived value divides by 1 instead of a zero range. -/
def Record.pricePerMile (r : Record) : ℚ :=
  r.expectedPrice * 1000 / (if r.electricRange = 0 then 1 else r.electricRange)

/-- The filtered dataframe with the `Price per Mile` column appended
(line 64); the source columns are carried over unchanged. -/
def mkView (l : List Record) : List ViewRecord :=
  l.map fun r => ⟨r.modelYear, r.make, r.electricRange, r.expectedPrice, r.pricePerMile⟩

/-- `Series.mean()`: sum divided by count (0 on an empty list, never reached
by the script's metrics since the loaded dataset is assumed non-empty). -/
def meanQ (xs : List ℚ) : ℚ := xs.sum / (xs.length : ℚ)

/-- Python `int()` on a number: truncation toward zero. -/
def pyInt (q : ℚ) : ℤ := if 0 ≤ q then ⌊q⌋ else ⌈q⌉

/-- Round to the nearest integer, ties to the even integer — the tie rule of
Python's built-in `round`. -/
def roundHalfEven (q : ℚ) : ℤ :=
  if q - (⌊q⌋ : ℚ) < 1/2 then ⌊q⌋
  else if 1/2 < q - (⌊q⌋ : ℚ) then ⌊q⌋ + 1
  else if ⌊q⌋ % 2 = 0 then ⌊q⌋ else ⌊q⌋ + 1

/-- Python `round(x, 2)`: round to the nearest multiple of 1/100 (ties to
even). -/
def pyRound2 (q : ℚ) : ℚ := ((roundHalfEven (q * 100) : ℚ)) / 100

/-- Line 33: `int(df['Electric Range'].mean())`, computed over the full
unfiltered dataset. -/
def displayedMeanRange (l : List Record) : ℤ :=
  pyInt (meanQ (l.map Record.electricRange))

/-- Line 35: `round(df['Expected Price ($1k)'].mean(), 2)`, computed over the
full unfiltered dataset. -/
def displayedMeanPrice (l : List Record) : ℚ :=
  pyRound2 (meanQ (l.map Record.expectedPrice))

/-- One row of the exported CSV (line 95, `to_csv(index=False)`): the four
source columns plus the derived column, cell values as stored in the view. -/
structure CsvRow where
  modelYear : Int
  make : String
  electricRange : ℚ
  expectedPrice : ℚ
  pricePerMile : ℚ
deriving DecidableEq

/-- The cell contents of the exported CSV: one row per view row, in order. -/
def toCsvRows (vs : List ViewRecord) : List CsvRow :=
  vs.map fun v => ⟨v.modelYear, v.make, v.electricRange, v.expectedPrice, v.pricePerMile⟩

/-- Render a rational cell for the HTML table. -/
def ratStr (q : ℚ) : String := toString q.num ++ "/" ++ toString q.den

/-- One `<tr>` of the HTML table produced by `to_html()` (line 98). -/
def rowHtml (v : ViewRecord) : String :=
  "<tr><td>" ++ toString v.modelYear ++ "</td><td>" ++ v.make ++ "</td><td>" ++
    ratStr v.electricRange ++ "</td><td>" ++ ratStr v.expectedPrice ++ "</td><td>" ++
    ratStr v.pricePerMile ++ "</td></tr>"

/-- The HTML table handed to the PDF backend (line 98). -/
def toHtml (vs : List ViewRecord) : String :=
  "<table>" ++ String.join (vs.map rowHtml) ++ "</table>"

/-- The failure raised by the PDF backend. -/
inductive ExportError where
  | backendUnavailable
deriving DecidableEq

/-- `pdfkit.from_string(html, False)` (line 99): returns the PDF bytes when
the `wkhtmltopdf` binary is present and configured, raises otherwise.  The
backend's availability is an environment fact, passed in as a flag. -/
def pdfkitFromString (backendAvailable : Bool) (html : String) : Except ExportError String :=
  if backendAvailable then Except.ok ("%PDF " ++ html) else Except.error ExportError.backendUnavailable

/-- One element rendered onto the page during a run of the script, in
script order.  Chart artifacts carry the data the renderer consumes; the
drawing itself is delegated to the plotting libraries. -/
inductive Artifact where
  | metricRange (v : ℤ)
  | metricPrice (v : ℚ)
  | chartStrip (points : List (Int × ℚ))
  | chartHeatmap (rows : List ViewRecord)
  | chartScatter (rows : List ViewRecord)
  | csvButton (rows : List CsvRow)
  | pdfButton (pdf : String)
  | errorScreen (e : ExportError)
deriving DecidableEq

/-- One top-to-bottom run of the script, as the sequence of elements it
renders: metrics over the unfiltered data (lines 33-35), the strip chart and
heatmap over the filtered view (lines 63-74), the optional scatter (77-80),
the CSV download button (95-96), then the eager `pdfkit.from_string` call
(99).  An uncaught exception there ends the run: everything rendered before
it stays on the page and the framework displays the error; the PDF button
(line 100) is never rendered. -/
def runApp (backendAvailable : Bool) (c : FilterCriteria) (l : List Record) : List Artifact :=
  let view := mkView (filterEngine c l)
  [Artifact.metricRange (displayedMeanRange l),
   Artifact.metricPrice (displayedMeanPrice l),
   Artifact.chartStrip (view.map fun v => (v.modelYear, v.pricePerMile)),
   Artifact.chartHeatmap view] ++
  (if c.advanced_charts then [Artifact.chartScatter view] else []) ++
  [Artifact.csvButton (toCsvRows view)] ++
  (match pdfkitFromString backendAvailable (toHtml view) with
   | Except.ok pdf => [Artifact.pdfButton pdf]
   | Except.error e => [Artifact.errorScreen e])

/-- Maximum of a list (first element as the seed; `dflt` only for `[]`). -/
def listMax {α : Type} [LinearOrder α] (dflt : α) : List α → α
  | [] => dflt
  | x :: xs => xs.foldl max x

/-- Minimum of a list (first element as the seed; `dflt` only for `[]`). -/
def listMin {α : Type} [LinearOrder α] (dflt : α) : List α → α
  | [] => dflt
  | x :: xs => xs.foldl min x

/-- The widest criteria for a dataset: every bound at the dataset's own
min/max, brand `All`, outliers shown. -/
def widestCriteria (l : List Record) : FilterCriteria :=
  { brand := "All"
    maxModelYear := listMax 0 (l.map Record.modelYear)
    priceLo := listMin 0 (l.map Record.expectedPrice)
    priceHi := listMax 0 (l.map Record.expectedPrice)
    rangeLo := listMin 0 (l.map Record.electricRange)
    rangeHi := listMax 0 (l.map Record.electricRange)
    show_outliers := true
    advanced_charts := false }

/-- A dataset on which the IQR step is not idempotent: prices
`[0, 0, 0, 0, 5, 100]`.  The first pass has Q1 = 0, Q3 = 15/4, fences
[-45/8, 75/8] and drops only the 100; on the remainder Q1 = Q3 = 0, so the
second pass also drops the 5. -/
def sixRows : List Record :=
  [⟨2018, "A", 100, 0⟩, ⟨2018, "A", 110, 0⟩, ⟨2018, "A", 120, 0⟩,
   ⟨2018, "A", 130, 0⟩, ⟨2019, "B", 200, 5⟩, ⟨2020, "C", 50, 100⟩]

/-- A single-row dataset; the IQR fences collapse onto the one price and the
row is kept. -/
def oneRow : List Record := [⟨2020, "A", 100, 40⟩]

/-- A dataset whose mean electric range is 29/10 = 2.9: `int()` truncates it
to 2 while the nearest integer is 3. -/
def twoRows : List Record := [⟨2020, "A", 2, 10⟩, ⟨2021, "B", 19/5, 20⟩]

/-- Criteria whose price interval is empty, so the base filter keeps
nothing. -/
def cNone : FilterCriteria := ⟨"All", 2022, 1, 0, 0, 300, false, false⟩

/-- The example view row for the 2020 record: price per mile
40 * 1000 / 100 = 400. -/
def v2020 : ViewRecord := ⟨2020, "A", 100, 40, 400⟩

/-! ## Helper lemmas -/

theorem le_foldl_max {α : Type} [LinearOrder α] (xs : List α) (a : α) : a ≤ xs.foldl max a := by
  induction xs generalizing a with
  | nil => exact le_refl a
  | cons b xs ih => exact le_trans (le_max_left a b) (ih (max a b))

theorem mem_le_foldl_max {α : Type} [LinearOrder α] (xs : List α) (a x : α) (hx : x ∈ xs) :
    x ≤ xs.foldl max a := by
  induction xs generalizing a with
  | nil => cases hx
  | cons b xs ih =>
    rcases List.mem_cons.mp hx with h | h
    · subst h; exact le_trans (le_max_right a x) (le_foldl_max xs (max a x))
    · exact ih (max a b) h

theorem foldl_min_le {α : Type} [LinearOrder α] (xs : List α) (a : α) : xs.foldl min a ≤ a := by
  induction xs generalizing a with
  | nil => exact le_refl a
  | cons b xs ih => exact le_trans (ih (min a b)) (min_le_left a b)

theorem foldl_min_le_mem {α : Type} [LinearOrder α] (xs : List α) (a x : α) (hx : x ∈ xs) :
    xs.foldl min a ≤ x := by
  induction xs generalizing a with
  | nil => cases hx
  | cons b xs ih =>
    rcases List.mem_cons.mp hx with h | h
    · subst h; exact le_trans (foldl_min_le xs (min a x)) (min_le_right a x)
    · exact ih (min a b) h

theorem le_listMax {α : Type} [LinearOrder α] (d : α) (l : List α) (x : α) (hx : x ∈ l) :
    x ≤ listMax d l := by
  cases l with
  | nil => cases hx
  | cons b xs =>
    rcases List.mem_cons.mp hx with h | h
    · subst h; exact le_foldl_max xs x
    · exact mem_le_foldl_max xs b x h

theorem listMin_le {α : Type} [LinearOrder α] (d : α) (l : List α) (x : α) (hx : x ∈ l) :
    listMin d l ≤ x := by
  cases l with
  | nil => cases hx
  | cons b xs =>
    rcases List.mem_cons.mp hx with h | h
    · subst h; exact foldl_min_le xs x
    · exact foldl_min_le_mem xs b x h

theorem mem_baseFilter_iff (c : FilterCriteria) (l : List Record) (r : Record) :
    r ∈ baseFilter c l ↔ r ∈ l ∧ (r.modelYear ≤ c.maxModelYear ∧
      (c.priceLo ≤ r.expectedPrice ∧ r.expectedPrice ≤ c.priceHi) ∧
      (c.rangeLo ≤ r.electricRange ∧ r.electricRange ≤ c.rangeHi) ∧
      (c.brand = "All" ∨ r.make = c.brand)) := by
  by_cases hb : c.brand = "All"
  · simp [baseFilter, basePass, hb, List.mem_filter, and_assoc]
  · simp [baseFilter, basePass, hb, List.mem_filter, and_assoc]
    tauto

theorem filterEngine_show (c : FilterCriteria) (l : List Record) (h : c.show_outliers = true) :
    filterEngine c l = baseFilter c l := by
  simp [filterEngine, h]

theorem iqrStep_nil : iqrStep ([] : List Record) = [] := rfl

theorem mem_iqrStep_iff (l : List Record) (h : l ≠ []) (r : Record) :
    r ∈ iqrStep l ↔ r ∈ l ∧ iqrLower l ≤ r.expectedPrice ∧ r.expectedPrice ≤ iqrUpper l := by
  obtain ⟨a, as, rfl⟩ := List.exists_cons_of_ne_nil h
  simp only [iqrStep, iqrLower, iqrUpper, quantileLinear, List.map_cons, List.mem_filter,
    Bool.not_eq_eq_eq_not, Bool.not_true, Bool.or_eq_false_iff, decide_eq_false_iff_not,
    not_lt, and_assoc]

theorem mkView_toRecord (l : List Record) : (mkView l).map ViewRecord.toRecord = l := by
  rw [mkView, List.map_map]
  exact List.map_id l

theorem baseFilter_sublist (c : FilterCriteria) (l : List Record) :
    List.Sublist (baseFilter c l) l := by
  unfold baseFilter
  split
  · exact List.Sublist.trans (List.filter_sublist _) (List.filter_sublist _)
  · exact List.filter_sublist _

theorem iqrStep_sublist (l : List Record) : List.Sublist (iqrStep l) l := by
  simp only [iqrStep]
  split
  · exact List.filter_sublist _
  · exact List.filter_sublist _

theorem roundHalfEven_dist (q : ℚ) : |q - (roundHalfEven q : ℚ)| ≤ 1/2 := by
  have h0 : (⌊q⌋ : ℚ) ≤ q := Int.floor_le q
  have h1 : q < (⌊q⌋ : ℚ) + 1 := Int.lt_floor_add_one q
  unfold roundHalfEven
  split
  next hlt => rw [abs_le]; constructor <;> linarith
  next hge =>
    split
    next hgt => rw [abs_le]; constructor <;> push_cast <;> linarith
    next hle =>
      have heq : q - (⌊q⌋ : ℚ) = 1/2 := le_antisymm (not_lt.mp hle) (not_lt.mp hge)
      split <;> (rw [abs_le]; constructor <;> push_cast <;> linarith)

theorem pyRound2_dist (q : ℚ) : |q - pyRound2 q| ≤ 1/200 := by
  have h := roundHalfEven_dist (q * 100)
  rw [abs_le] at h ⊢
  unfold pyRound2
  constructor <;> [linarith [h.1, h.2]; linarith [h.1, h.2]]

theorem meanQ_nonneg (xs : List ℚ) (h : ∀ x ∈ xs, 0 ≤ x) : 0 ≤ meanQ xs := by
  unfold meanQ
  exact div_nonneg (List.sum_nonneg h) (Nat.cast_nonneg _)

/-! ## Claims -/

/-- C1: a record survives the base filtering step iff its model year is at
most the criteria's ceiling, its price and range lie in the closed criteria
intervals, and the brand is `All` or matches the record's make; on the
three-row example with brand `A` exactly the 2020 and 2022 rows survive. -/
theorem c1_base_filter_characterization :
    (∀ (c : FilterCriteria) (l : List Record) (r : Record),
      r ∈ baseFilter c l ↔ r ∈ l ∧ (r.modelYear ≤ c.maxModelYear ∧
        (c.priceLo ≤ r.expectedPrice ∧ r.expectedPrice ≤ c.priceHi) ∧
        (c.rangeLo ≤ r.electricRange ∧ r.electricRange ≤ c.rangeHi) ∧
        (c.brand = "All" ∨ r.make = c.brand)))
    ∧ baseFilter cBrandA threeRows = [⟨2020, "A", 100, 40⟩, ⟨2022, "A", 50, 90⟩] :=
  ⟨mem_baseFilter_iff, by decide⟩

/-- C2: on a non-empty filtered subset the outlier step keeps exactly the
records whose price lies within the closed interval
`[Q1 - 1.5*IQR, Q3 + 1.5*IQR]` built from the 25th/75th linear-interpolation
percentiles of the subset's own prices (so records exactly on a fence are
retained), and with the `Show Outliers` box checked the subset passes
through unchanged. -/
theorem c2_iqr_step_characterization (l : List Record) (h : l ≠ []) :
    (∀ r : Record, r ∈ iqrStep l ↔
      r ∈ l ∧ iqrLower l ≤ r.expectedPrice ∧ r.expectedPrice ≤ iqrUpper l)
    ∧ (∀ (c : FilterCriteria) (l2 : List Record), c.show_outliers = true →
      filterEngine c l2 = baseFilter c l2) :=
  ⟨fun r => mem_iqrStep_iff l h r, fun c l2 hc => filterEngine_show c l2 hc⟩

/-- C2 witness: the characterization instantiated on the example dataset. -/
theorem c2_iqr_step_witness :
    threeRows ≠ [] ∧
    ((∀ r : Record, r ∈ iqrStep threeRows ↔
      r ∈ threeRows ∧ iqrLower threeRows ≤ r.expectedPrice ∧ r.expectedPrice ≤ iqrUpper threeRows)
    ∧ (∀ (c : FilterCriteria) (l2 : List Record), c.show_outliers = true →
      filterEngine c l2 = baseFilter c l2)) :=
  ⟨by decide, c2_iqr_step_characterization threeRows (by decide)⟩

/-- C3: in every filtered view, the derived price-per-mile of a record is
`expectedPrice * 1000 / electricRange`, except that a zero range divides by
the substitute 1, giving `expectedPrice * 1000`. -/
theorem c3_price_per_mile (c : FilterCriteria) (l : List Record) (v : ViewRecord)
    (hv : v ∈ mkView (filterEngine c l)) :
    (v.electricRange ≠ 0 → v.pricePerMile = v.expectedPrice * 1000 / v.electricRange) ∧
    (v.electricRange = 0 → v.pricePerMile = v.expectedPrice * 1000) := by
  obtain ⟨r, hr, rfl⟩ := List.mem_map.mp hv
  constructor
  · intro h0
    show Record.pricePerMile r = r.expectedPrice * 1000 / r.electricRange
    unfold Record.pricePerMile
    rw [if_neg h0]
  · intro h0
    show Record.pricePerMile r = r.expectedPrice * 1000
    unfold Record.pricePerMile
    rw [if_pos h0, div_one]

/-- C3 witness: the 2020 example row, whose price per mile is
40 * 1000 / 100 = 400. -/
theorem c3_price_per_mile_witness :
    v2020 ∈ mkView (filterEngine cAll threeRows) ∧
    ((v2020.electricRange ≠ 0 → v2020.pricePerMile = v2020.expectedPrice * 1000 / v2020.electricRange) ∧
     (v2020.electricRange = 0 → v2020.pricePerMile = v2020.expectedPrice * 1000)) :=
  ⟨by decide, c3_price_per_mile cAll threeRows v2020 (by decide)⟩

/-- C4: with the widest criteria (bounds at the dataset's own min/max, brand
`All`, outliers shown) the filter engine returns the dataset itself, in
particular a view with the same row count. -/
theorem c4_widest_criteria_identity (l : List Record) :
    filterEngine (widestCriteria l) l = l ∧
    (filterEngine (widestCriteria l) l).length = l.length := by
  have hfe : filterEngine (widestCriteria l) l = baseFilter (widestCriteria l) l :=
    filterEngine_show _ _ rfl
  have hbf : baseFilter (widestCriteria l) l = l := by
    have hbrand : ¬((widestCriteria l).brand ≠ "All") := by simp [widestCriteria]
    unfold baseFilter
    rw [if_neg hbrand]
    apply List.filter_eq_self.mpr
    intro r hr
    have h1 : r.modelYear ≤ (widestCriteria l).maxModelYear :=
      le_listMax 0 _ r.modelYear (List.mem_map_of_mem Record.modelYear hr)
    have h2 : (widestCriteria l).priceLo ≤ r.expectedPrice :=
      listMin_le 0 _ r.expectedPrice (List.mem_map_of_mem Record.expectedPrice hr)
    have h3 : r.expectedPrice ≤ (widestCriteria l).priceHi :=
      le_listMax 0 _ r.expectedPrice (List.mem_map_of_mem Record.expectedPrice hr)
    have h4 : (widestCriteria l).rangeLo ≤ r.electricRange :=
      listMin_le 0 _ r.electricRange (List.mem_map_of_mem Record.electricRange hr)
    have h5 : r.electricRange ≤ (widestCriteria l).rangeHi :=
      le_listMax 0 _ r.electricRange (List.mem_map_of_mem Record.electricRange hr)
    simp [basePass, h1, h2, h3, h4, h5]
  exact ⟨hfe.trans hbf, by rw [hfe, hbf]⟩

/-- C5 counterexample: on prices `[0,0,0,0,5,100]` the first IQR pass drops
only the 100, and the second pass then also drops the 5, so re-applying the
outlier-exclusion step to the result of a first application is not the
identity. -/
theorem c5_iqr_not_idempotent : iqrStep (iqrStep sixRows) ≠ iqrStep sixRows := by decide

/-- C5 (amended): the IQR outlier-exclusion step is idempotent on its fixed
points — if one application removes nothing, a second application removes
nothing either; in general a second application may remove further records. -/
theorem c5_iqr_fixed_point (l : List Record) (h : iqrStep l = l) :
    iqrStep (iqrStep l) = iqrStep l := by rw [h]; exact h

/-- C5 witness: a singleton view is a fixed point of the IQR step. -/
theorem c5_iqr_fixed_point_witness :
    iqrStep oneRow = oneRow ∧ iqrStep (iqrStep oneRow) = iqrStep oneRow :=
  ⟨by decide, c5_iqr_fixed_point oneRow (by decide)⟩

/-- C6: the outlier step maps the empty subset to the empty subset (pandas
quantiles of an empty series are NaN, every comparison with NaN is false,
and filtering the empty frame yields the empty frame — no error), so the
whole engine returns the empty view when the base filter keeps nothing. -/
theorem c6_empty_subset_identity (c : FilterCriteria) (l : List Record)
    (h : baseFilter c l = []) :
    iqrStep ([] : List Record) = [] ∧ filterEngine c l = [] := by
  refine ⟨rfl, ?_⟩
  by_cases hc : c.show_outliers = true <;> simp [filterEngine, h, hc, iqrStep_nil]

/-- C6 witness: criteria with an empty price interval keep nothing from the
example dataset and the engine returns the empty view. -/
theorem c6_empty_subset_witness :
    baseFilter cNone threeRows = [] ∧
    (iqrStep ([] : List Record) = [] ∧ filterEngine cNone threeRows = []) :=
  ⟨by decide, c6_empty_subset_identity cNone threeRows (by decide)⟩

/-- C7 counterexample: on a dataset with mean electric range 29/10 the
displayed metric `int(mean)` is 2, which is more than 1/2 away from the
mean — the displayed value is not the mean rounded to the nearest
integer. -/
theorem c7_mean_range_not_nearest :
    displayedMeanRange twoRows = 2 ∧
    meanQ (twoRows.map Record.electricRange) = 29/10 ∧
    ¬(|meanQ (twoRows.map Record.electricRange) - (displayedMeanRange twoRows : ℚ)| ≤ 1/2) :=
  ⟨by decide, by decide, by decide⟩

/-- C7 (amended): the displayed metrics are computed over the full unfiltered
dataset; the mean range is truncated toward zero by Python's `int()` (the
floor of the mean, for the nonnegative ranges), not rounded to nearest, and
the mean price is rounded to 2 decimal places (ties to even), hence within
1/200 of the true mean. -/
theorem c7_summary_stats (l : List Record) (_h : l ≠ [])
    (hr : ∀ r ∈ l, 0 ≤ r.electricRange) :
    displayedMeanRange l = ⌊meanQ (l.map Record.electricRange)⌋ ∧
    displayedMeanPrice l = pyRound2 (meanQ (l.map Record.expectedPrice)) ∧
    |meanQ (l.map Record.expectedPrice) - displayedMeanPrice l| ≤ 1/200 := by
  refine ⟨?_, rfl, pyRound2_dist _⟩
  unfold displayedMeanRange pyInt
  rw [if_pos]
  apply meanQ_nonneg
  intro x hx
  obtain ⟨r, hrl, rfl⟩ := List.mem_map.mp hx
  exact hr r hrl

/-- C7 witness: the metric characterization on the example dataset. -/
theorem c7_summary_stats_witness :
    threeRows ≠ [] ∧ (∀ r ∈ threeRows, 0 ≤ r.electricRange) ∧
    (displayedMeanRange threeRows = ⌊meanQ (threeRows.map Record.electricRange)⌋ ∧
     displayedMeanPrice threeRows = pyRound2 (meanQ (threeRows.map Record.expectedPrice)) ∧
     |meanQ (threeRows.map Record.expectedPrice) - displayedMeanPrice threeRows| ≤ 1/200) :=
  ⟨by decide, by decide, c7_summary_stats threeRows (by decide) (by decide)⟩

/-- C8 counterexample: with the PDF backend unavailable the run itself
surfaces the export error — `pdfkit.from_string` is called eagerly on every
run, with no PDF export action involved. -/
theorem c8_error_on_every_run :
    Artifact.errorScreen ExportError.backendUnavailable ∈ runApp false cAll threeRows := by
  decide

/-- C8 (amended): when the PDF backend is unavailable every run still renders
the CSV download button and both always-on charts before the eager
`pdfkit.from_string` call raises; the error is surfaced in the run itself
(not only on a PDF export action) and the PDF button is never rendered;
with the backend available the PDF button is rendered and no error
appears. -/
theorem c8_export_isolation (c : FilterCriteria) (l : List Record) :
    Artifact.csvButton (toCsvRows (mkView (filterEngine c l))) ∈ runApp false c l ∧
    Artifact.chartStrip ((mkView (filterEngine c l)).map fun v => (v.modelYear, v.pricePerMile))
      ∈ runApp false c l ∧
    Artifact.chartHeatmap (mkView (filterEngine c l)) ∈ runApp false c l ∧
    Artifact.errorScreen ExportError.backendUnavailable ∈ runApp false c l ∧
    (∀ p : String, Artifact.pdfButton p ∉ runApp false c l) ∧
    Artifact.pdfButton ("%PDF " ++ toHtml (mkView (filterEngine c l))) ∈ runApp true c l ∧
    Artifact.errorScreen ExportError.backendUnavailable ∉ runApp true c l := by
  by_cases hc : c.advanced_charts = true <;>
    simp [runApp, pdfkitFromString, hc]

/-- C9: the whole pipeline is a stable filter — the records surviving the
base predicate and the optional IQR step form a sublist of the original
dataset, i.e. they appear in their original relative order, and so do the
underlying records of the derived view. -/
theorem c9_stable_filter (c : FilterCriteria) (l : List Record) :
    List.Sublist (filterEngine c l) l ∧
    List.Sublist ((mkView (filterEngine c l)).map ViewRecord.toRecord) l := by
  have h : List.Sublist (filterEngine c l) l := by
    unfold filterEngine
    split
    · exact baseFilter_sublist c l
    · exact List.Sublist.trans (iqrStep_sublist _) (baseFilter_sublist c l)
  exact ⟨h, (mkView_toRecord (filterEngine c l)).symm ▸ h⟩

/-- C10: adding the derived column is frame-preserving — forgetting the
derived column of the view recovers the source rows exactly, and the CSV
export carries the stored (unsubstituted) source fields plus the derived
value; in particular a zero electric range stays zero in the view and in the
export. -/
theorem c10_view_frame (l : List Record) :
    (mkView l).map ViewRecord.toRecord = l ∧
    toCsvRows (mkView l) =
      l.map (fun r => ⟨r.modelYear, r.make, r.electricRange, r.expectedPrice, r.pricePerMile⟩) := by
  refine ⟨mkView_toRecord l, ?_⟩
  rw [toCsvRows, mkView, List.map_map]
  rfl
